import Mathlib

/-!
Verification of the podcast-generator server (`server.js`) against its
natural-language specification.  The JavaScript is shallowly embedded:
pure fragments become Lean functions, request handlers become functions
from their inputs (request fields, looked-up rows, oracle outcomes of
network / subprocess calls) to explicit outcome values, and the in-memory
API-key pool becomes explicit state passing.  JS numbers that hold epoch
milliseconds are modelled as `Nat`; nullable columns as `Option`;
JS-falsiness of strings (`""`), of `null`/`undefined` and of the number
`0` is modelled explicitly where the code relies on it.
-/

set_option maxRecDepth 20000

namespace TrumpPodgen

/-! ### Generic string helpers -/

/-- `leadsWith pat l` : `pat` is an initial segment of `l` (over `Char` lists). -/
def leadsWith : List Char → List Char → Bool
  | [], _ => true
  | _ :: _, [] => false
  | a :: as, b :: bs => a == b && leadsWith as bs

/-- `subListAt pat l` : `pat` occurs as a contiguous run somewhere in `l`. -/
def subListAt (pat : List Char) : List Char → Bool
  | [] => pat.isEmpty
  | l@(_ :: t) => leadsWith pat l || subListAt pat t

/-- `strContainsSub hay pat` : `pat` is a contiguous substring of `hay`. -/
def strContainsSub (hay pat : String) : Bool :=
  subListAt pat.data hay.data

/-- JS `String.prototype.trim()` over the character list (for the ASCII
inputs the handlers deal in, the JS and Lean whitespace sets coincide).
Defined over `List Char` so it evaluates by kernel reduction. -/
def jsTrimList (l : List Char) : List Char :=
  ((l.dropWhile Char.isWhitespace).reverse.dropWhile Char.isWhitespace).reverse

def jsTrim (s : String) : String := String.mk (jsTrimList s.data)

/-- JS `String.prototype.startsWith`. -/
def jsStartsWith (s pre : String) : Bool := leadsWith pre.data s.data

/-- JS `String.prototype.substring(0, n)` (character count; the inputs
involved are ASCII, where JS UTF-16 units and characters coincide). -/
def jsTakeChars (s : String) (n : Nat) : String := String.mk (s.data.take n)

/-! ### RSS / bundle writer (server.js:2258-2291 `generateLocalRss`,
server.js:2346-2375 `generateRss`)

Both functions are template literals over `(title, description, script,
audio)`.  The wall-clock derived values (`pubDate = now.toUTCString()`,
`guid` built from `Date.now()`) are passed in as parameters.  Note that
neither template interpolates `script`, and neither applies any escaping
to `title` or `description` — they are spliced in verbatim. -/

/-- server.js:2258-2291.  `audioPath = none` models a `null` audio path
(the JS falsy branch of the conditional at server.js:2263-2265). -/
def generateLocalRss (title description _script : String)
    (audioPath : Option String) (pubDate guid : String) : String :=
  let audioEnclosure :=
    match audioPath with
    | some p => "<enclosure url=\"" ++ p ++ "\" type=\"audio/wav\" length=\"0\"/>"
    | none => "<!-- Audio file not available -->"
  "<?xml version=\"1.0\" encoding=\"UTF-8\"?>\n" ++
  "<rss version=\"2.0\" xmlns:itunes=\"http://www.itunes.com/dtds/podcast-1.0.dtd\">\n" ++
  "  <channel>\n" ++
  "    <title>Trump Podcast Generator - Local Bundle</title>\n" ++
  "    <description>Self-contained AI-generated podcast from Trump speeches</description>\n" ++
  "    <link>file://./</link>\n" ++
  "    <language>en-us</language>\n" ++
  "    <pubDate>" ++ pubDate ++ "</pubDate>\n" ++
  "    <lastBuildDate>" ++ pubDate ++ "</lastBuildDate>\n" ++
  "    <itunes:author>Trump Podcast Generator</itunes:author>\n" ++
  "    <itunes:category text=\"News &amp; Politics\"/>\n" ++
  "    <itunes:explicit>false</itunes:explicit>\n" ++
  "\n" ++
  "    <item>\n" ++
  "      <title>" ++ title ++ "</title>\n" ++
  "      <description>" ++ description ++ "</description>\n" ++
  "      <pubDate>" ++ pubDate ++ "</pubDate>\n" ++
  "      <guid isPermaLink=\"false\">" ++ guid ++ "</guid>\n" ++
  "      " ++ audioEnclosure ++ "\n" ++
  "      <itunes:duration>10:00</itunes:duration>\n" ++
  "      <itunes:explicit>false</itunes:explicit>\n" ++
  "    </item>\n" ++
  "  </channel>\n" ++
  "</rss>"

/-- server.js:2346-2375 (absolute-URL variant). -/
def generateRss (title description _script audioUrl : String)
    (pubDate guid : String) : String :=
  "<?xml version=\"1.0\" encoding=\"UTF-8\"?>\n" ++
  "<rss version=\"2.0\" xmlns:itunes=\"http://www.itunes.com/dtds/podcast-1.0.dtd\">\n" ++
  "  <channel>\n" ++
  "    <title>Trump Podcast Generator</title>\n" ++
  "    <description>AI-generated podcasts from Trump speeches and rallies</description>\n" ++
  "    <link>http://localhost:3000</link>\n" ++
  "    <language>en-us</language>\n" ++
  "    <pubDate>" ++ pubDate ++ "</pubDate>\n" ++
  "    <lastBuildDate>" ++ pubDate ++ "</lastBuildDate>\n" ++
  "    <itunes:author>Trump Podcast Generator</itunes:author>\n" ++
  "    <itunes:category text=\"News &amp; Politics\"/>\n" ++
  "    <itunes:explicit>false</itunes:explicit>\n" ++
  "\n" ++
  "    <item>\n" ++
  "      <title>" ++ title ++ "</title>\n" ++
  "      <description>" ++ description ++ "</description>\n" ++
  "      <pubDate>" ++ pubDate ++ "</pubDate>\n" ++
  "      <guid isPermaLink=\"false\">" ++ guid ++ "</guid>\n" ++
  "      <enclosure url=\"http://localhost:3000/" ++ audioUrl ++ "\" type=\"audio/mpeg\"/>\n" ++
  "      <itunes:duration>10:00</itunes:duration>\n" ++
  "      <itunes:explicit>false</itunes:explicit>\n" ++
  "    </item>\n" ++
  "  </channel>\n" ++
  "</rss>"

/-! ### GET /api/search (server.js:1325-1398)

The handler reads `limit` and `offset` from the query string and computes
`limitNum = Math.min(parseInt(limit) || 50, 100)` and
`offsetNum = Math.max(parseInt(offset) || 0, 0)` (server.js:1330-1331).
A query parameter is modelled as the result of `parseInt` on it:
`none` for an absent parameter or one whose `parseInt` is `NaN`, and
`some n` for a numeric parse result.  JS `x || d` falls back to `d`
both on `NaN` and on `0`, which the embedding makes explicit. -/

/-- JS `parseInt(v) || d` where `v : Option Int` is the `parseInt` result
(`none` = `NaN`). -/
def jsOrInt (v : Option Int) (d : Int) : Int :=
  match v with
  | none => d
  | some n => if n = 0 then d else n

/-- server.js:1330 `Math.min(parseInt(limit) || 50, 100)`. -/
def searchLimitNum (limit : Option Int) : Int :=
  min (jsOrInt limit 50) 100

/-- server.js:1331 `Math.max(parseInt(offset) || 0, 0)`. -/
def searchOffsetNum (offset : Option Int) : Int :=
  max (jsOrInt offset 0) 0

/-- A row of the `speeches` table (server.js:49-64).  The schema declares
`date TEXT NOT NULL`, but the column is modelled as `Option String` so the
SQLite NULL ordering used by `ORDER BY date DESC` is statable; rows actually
reachable through `saveToDatabase` always carry `some` here. -/
structure SpeechRow where
  id : String
  title : String
  date : Option String
  transcript : Option String
  rally_location : Option String
  status : String
  deriving Repr, DecidableEq

/-- One conjunct of the WHERE clause the handler assembles
(server.js:1333-1350 for the row query, 1359-1376 for the count query;
both build the same condition list). -/
inductive SearchCond where
  | statusEq (s : String)
  | keywordLike (kw : String)
  | dateGe (d : String)
  | dateLe (d : String)
  deriving Repr, DecidableEq

/-- The condition list built by the handler: it always starts from
`WHERE status = ?` with parameter `'active'` (server.js:1333-1334), then
appends the keyword condition when `keyword && keyword.trim()` is truthy
(server.js:1336-1340) and the date bounds when truthy
(server.js:1342-1350).  Query parameters are `Option String` with `none` =
absent; JS falsiness of `""` is explicit. -/
def buildSearchConds (keyword startDate endDate : Option String) :
    List SearchCond :=
  [SearchCond.statusEq "active"] ++
  (match keyword with
   | some kw => if kw ≠ "" ∧ jsTrim kw ≠ "" then [SearchCond.keywordLike (jsTrim kw)] else []
   | none => []) ++
  (match startDate with
   | some d => if d ≠ "" then [SearchCond.dateGe d] else []
   | none => []) ++
  (match endDate with
   | some d => if d ≠ "" then [SearchCond.dateLe d] else []
   | none => [])

/-- Case-insensitive substring test modelling SQLite
`col LIKE '%kw%'` (LIKE is case-insensitive over ASCII). -/
def likeContains (col kw : String) : Bool :=
  subListAt (kw.data.map Char.toLower) (col.data.map Char.toLower)

/-- `col LIKE ?` where `col` is a nullable column: SQL `NULL LIKE x`
is NULL, i.e. does not satisfy the WHERE clause. -/
def likeOptContains (col : Option String) (kw : String) : Bool :=
  match col with
  | some c => likeContains c kw
  | none => false

/-- Evaluation of one WHERE conjunct on a row.  SQL comparisons on a NULL
`date` yield NULL, hence exclude the row. -/
def condHolds (r : SpeechRow) : SearchCond → Bool
  | SearchCond.statusEq s => r.status == s
  | SearchCond.keywordLike kw =>
      likeContains r.title kw || likeOptContains r.transcript kw ||
        likeOptContains r.rally_location kw
  | SearchCond.dateGe d =>
      match r.date with
      | some x => decide (d ≤ x)
      | none => false
  | SearchCond.dateLe d =>
      match r.date with
      | some x => decide (x ≤ d)
      | none => false

/-- A row satisfies the whole assembled WHERE clause. -/
def rowMatches (conds : List SearchCond) (r : SpeechRow) : Bool :=
  conds.all (condHolds r)

/-- Three-way lexicographic comparison on character lists. -/
def charListCmp : List Char → List Char → Ordering
  | [], [] => Ordering.eq
  | [], _ :: _ => Ordering.lt
  | _ :: _, [] => Ordering.gt
  | a :: as, b :: bs =>
      if a < b then Ordering.lt
      else if b < a then Ordering.gt
      else charListCmp as bs

/-- Three-way string comparison (SQLite BINARY collation is lexicographic
byte order; Lean's character order is by code point, which agrees on the
ASCII dates and ids involved). -/
def strCmp3 (a b : String) : Ordering :=
  charListCmp a.data b.data

/-- SQLite value order on the nullable `date` column: NULL sorts below
every text value, text compares lexicographically (BINARY collation). -/
def sqliteCmpOptDate : Option String → Option String → Ordering
  | none, none => Ordering.eq
  | none, some _ => Ordering.lt
  | some _, none => Ordering.gt
  | some a, some b => strCmp3 a b

/-- A sort key of an ORDER BY clause, as needed for this handler. -/
inductive OrderKey where
  | dateDesc
  | idAsc
  deriving Repr, DecidableEq

/-- Row comparison under one ORDER BY key ("`a` before `b`" is
`≠ Ordering.gt`). -/
def cmpForKey : OrderKey → SpeechRow → SpeechRow → Ordering
  | OrderKey.dateDesc, a, b => (sqliteCmpOptDate a.date b.date).swap
  | OrderKey.idAsc, a, b => strCmp3 a.id b.id

/-- Lexicographic combination of ORDER BY keys. -/
def cmpForKeys (ks : List OrderKey) (a b : SpeechRow) : Ordering :=
  match ks with
  | [] => Ordering.eq
  | k :: rest =>
      match cmpForKey k a b with
      | Ordering.eq => cmpForKeys rest a b
      | o => o

/-- `orderedByKeys ks l` : consecutive rows of `l` respect the ORDER BY
key list `ks`.  A query result list is correct for the clause exactly when
it is a permutation of the matching rows satisfying this predicate; any
such permutation may be returned. -/
def orderedByKeys (ks : List OrderKey) : List SpeechRow → Bool
  | a :: b :: t => cmpForKeys ks a b ≠ Ordering.gt && orderedByKeys ks (b :: t)
  | _ => true

/-- The ORDER BY clause the handler emits: server.js:1352 appends
`' ORDER BY date DESC LIMIT ? OFFSET ?'` — a single `date DESC` key. -/
def searchOrderKeys : List OrderKey := [OrderKey.dateDesc]

/-- The ordering the specification claims: `date DESC` with ties broken by
`id` ASC.  Stated from the spec sentence, for comparison with
`searchOrderKeys`. -/
def claimedOrderKeys : List OrderKey := [OrderKey.dateDesc, OrderKey.idAsc]

/-- SQLite `LIMIT lim OFFSET off` on an ordered row list: `OFFSET`
drops, a negative `LIMIT` means unlimited, and otherwise `LIMIT` takes. -/
def applyLimitOffset (lim off : Int) (l : List SpeechRow) : List SpeechRow :=
  let dropped := l.drop off.toNat
  if lim < 0 then dropped else dropped.take lim.toNat

/-- Insertion of a row into an already ordered list (used to give the
row query one concrete result order; C9 below does not depend on the
tie order this picks, and C7 treats the order relationally). -/
def insertOrdered (ks : List OrderKey) (r : SpeechRow) :
    List SpeechRow → List SpeechRow
  | [] => [r]
  | a :: t =>
      if cmpForKeys ks r a ≠ Ordering.gt then r :: a :: t
      else a :: insertOrdered ks r t

/-- Sort of the matching rows under the ORDER BY keys (stable insertion
sort; SQLite promises only the `orderedByKeys` property). -/
def sortByKeys (ks : List OrderKey) : List SpeechRow → List SpeechRow
  | [] => []
  | a :: t => insertOrdered ks a (sortByKeys ks t)

/-- The row query of GET /api/search (server.js:1333-1356): filter by the
assembled WHERE clause, order by `date DESC`, apply LIMIT/OFFSET. -/
def searchRows (table : List SpeechRow) (keyword startDate endDate : Option String)
    (limit offset : Option Int) : List SpeechRow :=
  applyLimitOffset (searchLimitNum limit) (searchOffsetNum offset)
    (sortByKeys searchOrderKeys
      (table.filter (rowMatches (buildSearchConds keyword startDate endDate))))

/-- The count query of GET /api/search (server.js:1359-1379): same WHERE
clause, no LIMIT/OFFSET. -/
def searchTotal (table : List SpeechRow) (keyword startDate endDate : Option String) :
    Nat :=
  (table.filter (rowMatches (buildSearchConds keyword startDate endDate))).length

/-! ### ApiKeyPool (server.js:2430-2537)

In-memory pool of provider keys.  Epoch milliseconds are `Nat`.  A JS
number-or-null field is `Option Nat`; the JS truthiness test
`if (keyInfo.rateLimitedUntil)` treats both `null` and `0` as false,
which `jsTruthyTime` captures.  The class fields `rateLimitedKeys` (a
`Set` mirroring which keys have a cooldown) and `keyStats` (never read)
do not influence any behaviour the claims mention and are not carried. -/

structure PoolKey where
  key : String
  priority : Nat
  lastUsed : Option Nat
  rateLimitedUntil : Option Nat
  successCount : Nat
  errorCount : Nat
  deriving Repr, DecidableEq

structure ApiKeyPool where
  keys : List PoolKey
  currentIndex : Nat
  deriving Repr, DecidableEq

/-- JS truthiness of a number-or-null time value. -/
def jsTruthyTime : Option Nat → Bool
  | none => false
  | some t => t != 0

/-- The filter predicate of `getNextKey` (server.js:2467-2470): a key is
kept unless its `rateLimitedUntil` is truthy and strictly in the future. -/
def keyAvailable (now : Nat) (k : PoolKey) : Bool :=
  !(jsTruthyTime k.rateLimitedUntil && k.rateLimitedUntil.getD 0 > now)

/-- The side effect inside the same filter pass (server.js:2471-2475): a
truthy, expired `rateLimitedUntil` is reset to null. -/
def clearExpired (now : Nat) (k : PoolKey) : PoolKey :=
  if jsTruthyTime k.rateLimitedUntil && k.rateLimitedUntil.getD 0 ≤ now then
    { k with rateLimitedUntil := none }
  else k

/-- server.js:2463-2489 `getNextKey()`.  The filter callback both selects
the available keys and clears expired cooldowns on every key it visits;
the round-robin index then picks from the available list and the chosen
key's `lastUsed` is set.  Keys in the pool have pairwise distinct `key`
strings (`addKey`, server.js:2438-2451, refuses duplicates), so updating
the chosen JS object is modelled as updating the key with that string. -/
def getNextKey (p : ApiKeyPool) (now : Nat) : Option String × ApiKeyPool :=
  let cleared := p.keys.map (clearExpired now)
  match p.keys.filter (keyAvailable now) with
  | [] => (none, { p with keys := cleared })
  | a :: t =>
      let avail := a :: t
      let idx := p.currentIndex % avail.length
      let chosen := avail.get ⟨idx, Nat.mod_lt _ (Nat.succ_pos t.length)⟩
      (some chosen.key,
       { keys := cleared.map (fun k =>
           if k.key == chosen.key then { k with lastUsed := some now } else k),
         currentIndex := (p.currentIndex + 1) % avail.length })

/-- server.js:2491-2499 `markRateLimited(apiKey, durationMs = 60000)`. -/
def markRateLimited (p : ApiKeyPool) (apiKey : String) (now : Nat)
    (durationMs : Nat := 60000) : ApiKeyPool :=
  { p with keys := p.keys.map (fun k =>
      if k.key == apiKey then
        { k with rateLimitedUntil := some (now + durationMs),
                 errorCount := k.errorCount + 1 }
      else k) }

/-- server.js:2501-2506 `markSuccess(apiKey)`. -/
def markSuccess (p : ApiKeyPool) (apiKey : String) : ApiKeyPool :=
  { p with keys := p.keys.map (fun k =>
      if k.key == apiKey then { k with successCount := k.successCount + 1 }
      else k) }

/-- server.js:2526 `getStats().availableKeys`:
`!k.rateLimitedUntil || k.rateLimitedUntil <= Date.now()`. -/
def statsAvailableKeys (p : ApiKeyPool) (now : Nat) : Nat :=
  (p.keys.filter (fun k =>
    !(jsTruthyTime k.rateLimitedUntil) || k.rateLimitedUntil.getD 0 ≤ now)).length

/-! ### POST /api/openrouter (server.js:758-876)

The handler body is one `try`/`catch`.  Crucially, `apiKey` and
`usingPool` are declared with `let` INSIDE the try block
(server.js:763-764), so they are block-scoped to the try block and are
not visible in the catch block, whose code nevertheless reads them
(server.js:838, 840, 842, 844, 854, 861).  In JavaScript, evaluating an
identifier that is not bound in any enclosing scope throws a
`ReferenceError`.  The embedding models the lexical environment of the
catch block explicitly: the identifiers actually in scope there are the
catch parameter, the handler parameters, and module-level bindings. -/

/-- Identifiers lexically visible inside the catch block at server.js:834:
the catch parameter `error`, the handler parameters `req`/`res`, and the
module-level names the block could reach.  `apiKey` and `usingPool` are
absent: they are `let`-bound inside the try block (server.js:763-764). -/
def openrouterCatchScope : List String :=
  ["error", "req", "res", "apiKeyPool", "axios", "console", "analytics",
   "trackModelUsage", "process"]

/-- Outcome of the upstream `axios.post` call at server.js:801-815. -/
inductive UpstreamOutcome where
  | ok (content : String)
  | httpError (status : Nat)
  | netError (msg : String)
  deriving Repr, DecidableEq

/-- Outcome of one POST /api/openrouter request: an HTTP response with the
resulting pool state, or a crash (an exception escaping the handler, so no
response is sent) with the pool state at the moment of the crash. -/
inductive OrOutcome where
  | response (status : Nat) (pool : ApiKeyPool)
  | crash (msg : String) (pool : ApiKeyPool)
  deriving Repr, DecidableEq

/-- JS truthiness of a string-or-undefined request field. -/
def jsTruthyStr : Option String → Bool
  | none => false
  | some s => s != ""

/-- JS `a || b` on string-or-undefined values. -/
def jsOrStr (a b : Option String) : Option String :=
  if jsTruthyStr a then a else b

/-- The catch block of the handler (server.js:834-875).  Its first branch
condition evaluates the identifier `usingPool` (server.js:838); since that
identifier is not in `openrouterCatchScope`, the evaluation throws a
`ReferenceError` and the intended rate-limit bookkeeping below it is
unreachable.  The intended code is kept under the scope guard so the
embedding matches the source text. -/
def openrouterCatch (upstreamStatus : Option Nat) (usingPool : Bool)
    (apiKey : String) (pool : ApiKeyPool) (now : Nat) : OrOutcome :=
  if "usingPool" ∈ openrouterCatchScope then
    -- server.js:838-846 (dead code at runtime: the guard above is false)
    let pool1 :=
      if usingPool then
        match upstreamStatus with
        | some 429 => markRateLimited pool apiKey now 60000
        | some 401 => pool     -- markError INVALID_KEY (removes the key)
        | _ => pool            -- markError REQUEST_ERROR
      else pool
    match upstreamStatus with
    | some 401 => OrOutcome.response 401 pool1
    | some 429 => OrOutcome.response 429 pool1
    | some 400 => OrOutcome.response 400 pool1
    | _ => OrOutcome.response 500 pool1
  else
    OrOutcome.crash "ReferenceError: usingPool is not defined" pool

/-- server.js:758-876, the whole handler.  `model`/`messages` are the body
fields (string-or-absent; a non-empty `messages` array is a truthy value,
modelled by `some`), `clientKey` the `x-openrouter-key` header, `envKey`
`process.env.OPENROUTER_API_KEY`, and `upstream` the outcome of the
provider call. -/
def openrouterHandler (usePool : Bool) (model messages clientKey envKey : Option String)
    (pool : ApiKeyPool) (now : Nat) (upstream : UpstreamOutcome) : OrOutcome :=
  -- server.js:766-774: key selection
  let sel :=
    if usePool && statsAvailableKeys pool now > 0 then
      let r := getNextKey pool now
      (r.1, r.2, true)
    else
      (jsOrStr clientKey envKey, pool, false)
  match sel with
  | (apiKey?, pool1, usingPool) =>
    if ¬ jsTruthyStr apiKey? then OrOutcome.response 401 pool1  -- server.js:776-783
    else
      let apiKey := apiKey?.getD ""
      if ¬ jsStartsWith apiKey "sk-or-v1-" then OrOutcome.response 400 pool1  -- server.js:786-791
      else if ¬ (jsTruthyStr model && jsTruthyStr messages) then
        OrOutcome.response 400 pool1  -- server.js:793-798
      else
        match upstream with
        | UpstreamOutcome.ok _ =>
            -- server.js:817-832: success path
            let pool2 := if usingPool then markSuccess pool1 apiKey else pool1
            OrOutcome.response 200 pool2
        | UpstreamOutcome.httpError s =>
            openrouterCatch (some s) usingPool apiKey pool1 now
        | UpstreamOutcome.netError _ =>
            openrouterCatch none usingPool apiKey pool1 now

/-! ### Workflows and their endpoints

A row of the `workflows` table (server.js:70-80).  `speech_ids` is stored
as a JSON array of speech ids.  The five `status` values the handlers
write are the literals below.  Endpoints are modelled as functions of the
request fields, the workflow row the `SELECT ... WHERE id = ?` lookup
returns (`none` = absent), and oracles for external effects; each returns
an outcome carrying the updated row on success. -/

inductive WfStatus where
  | draft
  | script_generated
  | script_uploaded
  | audio_generated
  | finalized
  deriving Repr, DecidableEq

structure Workflow where
  name : String
  speechIds : List String
  script : Option String
  audioUrl : Option String
  rssUrl : Option String
  status : WfStatus
  deriving Repr, DecidableEq

/-- The stage index of a status in the pipeline
draft → (script_generated ≡ script_uploaded) → audio_generated →
finalized, as the claim orders it.  This definition follows the claim
wording (it is the yardstick the monotonicity claim is measured by). -/
def stageOf : WfStatus → Nat
  | WfStatus.draft => 0
  | WfStatus.script_generated => 1
  | WfStatus.script_uploaded => 1
  | WfStatus.audio_generated => 2
  | WfStatus.finalized => 3

/-- POST /api/workflow (server.js:1469-1502). `speechIds = none` models an
absent or non-array body field. -/
inductive CreateWfOutcome where
  | errC (code : Nat) (msg : String)
  | okC (wf : Workflow)
  deriving Repr, DecidableEq

def createWorkflowEndpoint (name : Option String)
    (speechIds : Option (List String)) : CreateWfOutcome :=
  match name, speechIds with
  | some nm, some ids =>
      if nm = "" ∨ ids = [] then
        CreateWfOutcome.errC 400 "Name and speechIds array are required"
      else
        CreateWfOutcome.okC
          { name := nm, speechIds := ids, script := none, audioUrl := none,
            rssUrl := none, status := WfStatus.draft }
  | _, _ => CreateWfOutcome.errC 400 "Name and speechIds array are required"

/-- POST /api/upload-script (server.js:1530-1574).  The handler validates
the body BEFORE touching the database: `!workflowId || !script` → 400,
then `script.trim().length === 0` → 400 (evaluated on the TRIMMED text),
then `script.length > 50000` → 400 (evaluated on the UNTRIMMED text);
only then does the UPDATE run, storing `script.trim()`, with zero changed
rows mapped to 404.  The `typeof script !== 'string'` case is outside the
model (the script field is taken to be a string when present). -/
inductive UploadOutcome where
  | errU (code : Nat) (msg : String)
  | okU (stored : String) (wf' : Workflow)
  deriving Repr, DecidableEq

def uploadScriptEndpoint (workflowId script : Option String)
    (wf : Option Workflow) : UploadOutcome :=
  if ¬ (jsTruthyStr workflowId && jsTruthyStr script) then
    UploadOutcome.errU 400 "workflowId and script are required"
  else
    let s := script.getD ""
    if (jsTrim s).length = 0 then
      UploadOutcome.errU 400 "Script must be a non-empty string"
    else if s.length > 50000 then
      UploadOutcome.errU 400 "Script too long (max 50,000 characters)"
    else
      match wf with
      | none => UploadOutcome.errU 404 "Workflow not found"
      | some w =>
          UploadOutcome.okU (jsTrim s)
            { w with script := some (jsTrim s), status := WfStatus.script_uploaded }

/-- POST /api/generate-script (server.js:1577-1638): the three strategies
selected at server.js:1599-1609. -/
inductive Strategy where
  | swarm
  | batched
  | single
  deriving Repr, DecidableEq

/-- The strategy dispatch (server.js:1601-1609):
`useSwarm && speeches.length >= 3` → swarm, else
`speeches.length > batchSize` → batched, else single. -/
def chooseStrategy (useSwarm : Bool) (n batchSize : Nat) : Strategy :=
  if useSwarm && n ≥ 3 then Strategy.swarm
  else if n > batchSize then Strategy.batched
  else Strategy.single

/-- POST /api/generate-script endpoint shell (server.js:1577-1638).
`strategyResult` is the outcome of the dispatched strategy call (each
strategy returns the script text or throws).  On success the workflow is
updated to `script_generated` (server.js:1611-1613) with no check of its
previous status; on failure the catch at server.js:1633-1637 answers 500
and the row is left untouched. -/
inductive GenScriptOutcome where
  | errG (code : Nat) (msg : String)
  | okG (wf' : Workflow)
  deriving Repr, DecidableEq

def generateScriptEndpoint (workflowId model : Option String)
    (wf : Option Workflow) (speechCount : Nat)
    (strategyResult : Except String String) : GenScriptOutcome :=
  if ¬ (jsTruthyStr workflowId && jsTruthyStr model) then
    GenScriptOutcome.errG 400 "workflowId and model are required"
  else
    match wf with
    | none => GenScriptOutcome.errG 404 "Workflow not found"
    | some w =>
        if speechCount = 0 then
          GenScriptOutcome.errG 400 "No speeches found for this workflow"
        else
          match strategyResult with
          | Except.ok s =>
              GenScriptOutcome.okG
                { w with script := some s, status := WfStatus.script_generated }
          | Except.error e => GenScriptOutcome.errG 500 e

/-! ### TTS worker and POST /api/generate-audio -/

/-- The JSON object a successful worker writes to stdout (§6.4; parsed at
server.js:1990). -/
structure TtsJson where
  success : Bool
  output_file : String
  duration : Option Nat
  deriving Repr, DecidableEq

/-- How one `spawn('python', args)` invocation ends (server.js:1971-2008):
process exit with a code and captured stdout/stderr, a spawn error, or the
5-minute watchdog killing it.  `stdoutParse` is the result of
`JSON.parse(stdout)` (`none` = parse failure). -/
inductive TtsProcEnd where
  | exited (code : Nat) (stdoutParse : Option TtsJson) (stderr : String)
  | spawnError (msg : String)
  | timeout
  deriving Repr, DecidableEq

/-- server.js:1948-2010 `generateLocalTTS`: exit code 0 with parseable
stdout resolves with the parsed object; every other ending rejects. -/
def generateLocalTTS : TtsProcEnd → Except String TtsJson
  | TtsProcEnd.exited 0 (some j) _ => Except.ok j
  | TtsProcEnd.exited 0 none _ =>
      Except.error "TTS completed but failed to parse result"
  | TtsProcEnd.exited (_ + 1) _ stderr =>
      Except.error ("TTS process failed: " ++ stderr)
  | TtsProcEnd.spawnError m => Except.error ("Failed to start TTS process: " ++ m)
  | TtsProcEnd.timeout => Except.error "TTS generation timeout (5 minutes)"

/-- The worker invocation failed in one of the three ways the claim lists:
nonzero exit code, spawn error, or the 5-minute timeout. -/
def ttsInvocationFailed : TtsProcEnd → Bool
  | TtsProcEnd.exited c _ _ => c != 0
  | TtsProcEnd.spawnError _ => true
  | TtsProcEnd.timeout => true

/-- The `audioResult` value the handler reports as `ttsResult`
(server.js:1890-1938).  On the local success path it is the worker's
parsed JSON (which has no `fallback` field — modelled `false`); on the
local failure path it is `{success: false, error, fallback: true}`; on the
non-local path it is the mock object. -/
structure TtsResultModel where
  success : Bool
  fallback : Bool
  mock : Bool
  error : Option String
  duration : Option Nat
  deriving Repr, DecidableEq

inductive GenAudioOutcome where
  | errA (code : Nat) (msg : String)
  | okA (audioUrl : String) (tts : TtsResultModel) (wf' : Workflow)
  deriving Repr, DecidableEq

/-- POST /api/generate-audio (server.js:1877-1945).  `!workflow ||
!workflow.script` → 400; on the `useLocal` path a failed TTS invocation is
caught (server.js:1897-1905), the fallback path `audio/<workflowId>.wav`
substituted, and in EVERY non-error case the row is updated to
`audio_generated` with the chosen `audioUrl` (server.js:1917-1918) and the
request answers 200. -/
def generateAudioEndpoint (workflowId : Option String) (wf : Option Workflow)
    (useLocal : Bool) (proc : TtsProcEnd) : GenAudioOutcome :=
  if ¬ jsTruthyStr workflowId then
    GenAudioOutcome.errA 400 "workflowId is required"
  else
    let wid := workflowId.getD ""
    match wf with
    | none => GenAudioOutcome.errA 400 "Workflow not found or no script available"
    | some w =>
        if ¬ jsTruthyStr w.script then
          GenAudioOutcome.errA 400 "Workflow not found or no script available"
        else
          let ar :=
            if useLocal then
              match generateLocalTTS proc with
              | Except.ok j =>
                  (j.output_file,
                   { success := j.success, fallback := false, mock := false,
                     error := none, duration := j.duration : TtsResultModel })
              | Except.error e =>
                  ("audio/" ++ wid ++ ".wav",
                   { success := false, fallback := true, mock := false,
                     error := some e, duration := none : TtsResultModel })
            else
              ("audio/" ++ wid ++ ".wav",
               { success := true, fallback := false, mock := true,
                 error := none, duration := none : TtsResultModel })
          GenAudioOutcome.okA ar.1 ar.2
            { w with audioUrl := some ar.1, status := WfStatus.audio_generated }

/-- POST /api/finalize (server.js:2136-2196).  `!workflow ||
!workflow.script || !workflow.audio_url` → 400; otherwise the RSS (bundle
or standalone) is written and the row updated to `finalized`
(server.js:2170-2171). -/
inductive FinalizeOutcome where
  | errF (code : Nat) (msg : String)
  | okF (rssUrl : String) (wf' : Workflow)
  deriving Repr, DecidableEq

def finalizeEndpoint (workflowId : Option String) (wf : Option Workflow)
    (localBundle : Bool) : FinalizeOutcome :=
  if ¬ jsTruthyStr workflowId then
    FinalizeOutcome.errF 400 "workflowId is required"
  else
    let wid := workflowId.getD ""
    match wf with
    | none => FinalizeOutcome.errF 400 "Workflow not ready for finalization"
    | some w =>
        if ¬ (jsTruthyStr w.script && jsTruthyStr w.audioUrl) then
          FinalizeOutcome.errF 400 "Workflow not ready for finalization"
        else
          let rssUrl :=
            if localBundle then "bundles/" ++ wid ++ "/podcast.xml"
            else "rss/" ++ wid ++ ".xml"
          FinalizeOutcome.okF rssUrl
            { w with rssUrl := some rssUrl, status := WfStatus.finalized }

/-! ### generateBatchScript (server.js:1672-1741)

The batched strategy: speeches are chunked into contiguous slices of
`batchSize` (server.js:1674-1677), one summary LLM call is made per batch
inside a try/catch (server.js:1702-1718), then one synthesis call over
the assembled summaries (server.js:1740).  LLM calls are modelled by an
oracle mapping the call sequence number and the prompt to the provider
outcome; batch `i` is call `i` and the synthesis call is call
`batches.length`.  The `model` argument only flows into `callOpenRouter`
and is absorbed by the oracle. -/

/-- A speech row as selected for script generation (server.js:1593:
`SELECT title, date, transcript, rally_location`). `date` is `TEXT NOT
NULL` in the schema. -/
structure GSSpeech where
  title : String
  date : String
  transcript : Option String
  rally_location : Option String
  deriving Repr, DecidableEq, Inhabited

/-- The chunking loop at server.js:1674-1677 (`for (i = 0; i <
speeches.length; i += batchSize) batches.push(speeches.slice(i, i +
batchSize))`), written with explicit fuel so it is total; for
`0 < batchSize` the fuel `l.length` is never exhausted and the JS loop is
reproduced exactly (for `batchSize = 0` the JS loop would not
terminate). -/
def chunksGo (batchSize : Nat) : Nat → List GSSpeech → List (List GSSpeech)
  | _, [] => []
  | 0, l => [l]
  | fuel + 1, l => l.take batchSize :: chunksGo batchSize fuel (l.drop batchSize)

def chunks (batchSize : Nat) (l : List GSSpeech) : List (List GSSpeech) :=
  chunksGo batchSize l.length l

/-- The per-batch excerpt (server.js:1691): first 300 characters of a
truthy transcript plus an ellipsis, else a placeholder. -/
def batchExcerpt (s : GSSpeech) : String :=
  match s.transcript with
  | some t => if t ≠ "" then jsTakeChars t 300 ++ "..." else "No transcript available"
  | none => "No transcript available"

/-- One speech block of the batch prompt (server.js:1687-1692). -/
def batchSpeechBlock (j : Nat) (s : GSSpeech) : String :=
  "\nSpeech " ++ toString (j + 1) ++ ": " ++ s.title ++
  "\nDate: " ++ s.date ++
  "\nLocation: " ++ (match s.rally_location with
                     | some loc => if loc ≠ "" then loc else "Unknown"
                     | none => "Unknown") ++
  "\nExcerpt: " ++ batchExcerpt s ++ "\n"

/-- The batch summary prompt (server.js:1685-1700). -/
def batchPrompt (batch : List GSSpeech) : String :=
  "Analyze and summarize the key themes, quotes, and topics from these Trump speeches:\n\n" ++
  String.intercalate "\n"
    ((batch.enum).map (fun p => batchSpeechBlock p.1 p.2)) ++
  "\n\nProvide a concise summary focusing on:\n" ++
  "- Main themes and topics discussed\n" ++
  "- Most impactful quotes\n" ++
  "- Key policy points or announcements\n" ++
  "- Audience reactions or notable moments\n\n" ++
  "Keep summary under 200 words."

/-- server.js:1707/1715: `` `${batch[batch.length - 1].date} to
${batch[0].date}` `` (batches are never empty when `0 < batchSize`). -/
def batchDateRange (batch : List GSSpeech) : String :=
  (batch.getLastD default).date ++ " to " ++ (batch.headD default).date

/-- One entry of `batchSummaries` (server.js:1703-1717). -/
structure BatchSummary where
  batchNumber : Nat
  speechCount : Nat
  dateRange : String
  summary : String
  deriving Repr, DecidableEq

/-- The summary loop (server.js:1683-1719): batch `i` issues call `i`; a
failed call is replaced by the failure marker built from the batch's
titles (server.js:1710-1717) and the loop continues. -/
def mkBatchSummaries (batches : List (List GSSpeech))
    (oracle : Nat → String → Except String String) : List BatchSummary :=
  (batches.enum).map (fun p =>
    match oracle p.1 (batchPrompt p.2) with
    | Except.ok summary =>
        { batchNumber := p.1 + 1, speechCount := p.2.length,
          dateRange := batchDateRange p.2, summary := summary }
    | Except.error _ =>
        { batchNumber := p.1 + 1, speechCount := p.2.length,
          dateRange := batchDateRange p.2,
          summary := "Batch processing failed: " ++
            String.intercalate ", " (p.2.map GSSpeech.title) })

/-- One summary block of the synthesis prompt (server.js:1724-1727). -/
def finalSummaryBlock (b : BatchSummary) : String :=
  "\nBatch " ++ toString b.batchNumber ++ " (" ++ toString b.speechCount ++
  " speeches, " ++ b.dateRange ++ "):\n" ++ b.summary ++ "\n"

/-- The synthesis prompt (server.js:1722-1738). -/
def finalPrompt (speechCount : Nat) (style : String) (duration : Nat)
    (summaries : List BatchSummary) : String :=
  "Create a comprehensive " ++ toString duration ++ "-minute podcast script in a " ++
  style ++ " style based on these speech batch summaries:\n\n" ++
  String.intercalate "\n" (summaries.map finalSummaryBlock) ++
  "\n\nRequirements:\n" ++
  "- Create an engaging " ++ toString duration ++ "-minute podcast episode covering all batches\n" ++
  "- Include an introduction explaining the scope (" ++ toString speechCount ++ " speeches total)\n" ++
  "- Weave together themes from different time periods\n" ++
  "- Highlight evolution of key topics over time\n" ++
  "- Include conclusion summarizing overall patterns\n" ++
  "- Structure for audio with clear transitions between batch content\n" ++
  "- Include timestamps for major sections\n\n" ++
  "Format as a structured script with speaker cues and timing notes."

/-- Everything one run of `generateBatchScript` does: the batches, the
summary entries, the synthesis prompt, the synthesis outcome (an error
here propagates out of the function, server.js:1740), and the total number
of LLM calls issued
(`batches.length` summary calls plus the synthesis call). -/
structure BatchRun where
  batches : List (List GSSpeech)
  summaries : List BatchSummary
  synthesisPrompt : String
  result : Except String String
  callCount : Nat
  deriving Repr

/-- server.js:1672-1741 `generateBatchScript`. -/
def generateBatchScript (speeches : List GSSpeech) (style : String)
    (duration batchSize : Nat)
    (oracle : Nat → String → Except String String) : BatchRun :=
  let batches := chunks batchSize speeches
  let summaries := mkBatchSummaries batches oracle
  let fp := finalPrompt speeches.length style duration summaries
  { batches := batches, summaries := summaries, synthesisPrompt := fp,
    result := oracle batches.length fp, callCount := batches.length + 1 }

/-! ## Claim theorems -/

/-- C1 (code_bug): the spec requires the RSS/bundle writers to escape XML
metacharacters in user-provided `title` and `description`, but both
writers splice the strings in verbatim.  At the spec's own S6 input
(title "Ep1", description containing a raw character 60) the emitted feed
contains the description with the raw unescaped character 60
(`<description><b>bold</b></description>` appears literally, so the
element content cannot parse back to the input) and the escape sequence
`&lt;` occurs nowhere in either writer's output. -/
theorem c1_rss_writers_do_not_escape :
    strContainsSub
      (generateLocalRss "Ep1" "<b>bold</b>" "script" (some "audio/w.wav")
        "Mon, 01 Jan 2024 00:00:00 GMT" "trump-podcast-local-1")
      "<description><b>bold</b></description>" = true ∧
    strContainsSub
      (generateLocalRss "Ep1" "<b>bold</b>" "script" (some "audio/w.wav")
        "Mon, 01 Jan 2024 00:00:00 GMT" "trump-podcast-local-1")
      "&lt;" = false ∧
    strContainsSub
      (generateRss "Ep1" "<b>bold</b>" "script" "audio/w1.wav"
        "Mon, 01 Jan 2024 00:00:00 GMT" "trump-podcast-1")
      "<description><b>bold</b></description>" = true ∧
    strContainsSub
      (generateRss "Ep1" "<b>bold</b>" "script" "audio/w1.wav"
        "Mon, 01 Jan 2024 00:00:00 GMT" "trump-podcast-1")
      "&lt;" = false := by
  refine ⟨by decide, by decide, by decide, by decide⟩

/-- C2 counterexample: uploading a script to a FINALIZED workflow succeeds
and moves its status back to `script_uploaded`, an earlier stage — the
handler at server.js:1548-1549 sets the status unconditionally, so the
claimed monotonicity fails. -/
theorem c2_upload_on_finalized_moves_back :
    uploadScriptEndpoint (some "w1") (some "new script")
      (some { name := "W", speechIds := ["archive_a"], script := some "old",
              audioUrl := some "audio/w1.wav", rssUrl := some "rss/w1.xml",
              status := WfStatus.finalized })
      = UploadOutcome.okU "new script"
          { name := "W", speechIds := ["archive_a"], script := some "new script",
            audioUrl := some "audio/w1.wav", rssUrl := some "rss/w1.xml",
            status := WfStatus.script_uploaded } ∧
    stageOf WfStatus.script_uploaded < stageOf WfStatus.finalized := by
  refine ⟨by decide, by decide⟩

/-- C4 (code_bug): in pool mode, an upstream 429 does NOT mark the pool
key rate-limited and does NOT produce an HTTP 429 — the catch block
(server.js:838) reads the try-scoped `usingPool`, so the handler crashes
with a `ReferenceError` before its own rate-limit bookkeeping
(server.js:839-846) or its 429 response (server.js:856-863) can run.  At a
concrete request with a fresh pool key, the outcome is the crash and the
key's `rateLimitedUntil` is still null with `errorCount` 0. -/
theorem c4_429_crashes_before_marking :
    openrouterHandler true (some "gpt") (some "msgs") none none
      { keys := [{ key := "sk-or-v1-abc", priority := 10, lastUsed := none,
                   rateLimitedUntil := none, successCount := 0, errorCount := 0 }],
        currentIndex := 0 }
      1000 (UpstreamOutcome.httpError 429)
    = OrOutcome.crash "ReferenceError: usingPool is not defined"
        { keys := [{ key := "sk-or-v1-abc", priority := 10, lastUsed := some 1000,
                     rateLimitedUntil := none, successCount := 0, errorCount := 0 }],
          currentIndex := 0 } := by
  decide

/-- C7 counterexample: the handler's ORDER BY clause is `date DESC` alone
(server.js:1352), so an output with two equal-date rows in id-DESCENDING
order satisfies everything the query orders by, refuting the claimed
`id ASC` tie-break; the embedded query function itself returns exactly
that order on a concrete table. -/
theorem c7_no_id_tiebreak :
    orderedByKeys searchOrderKeys
      [{ id := "b", title := "T2", date := some "2020-01-01", transcript := none,
         rally_location := none, status := "active" },
       { id := "a", title := "T1", date := some "2020-01-01", transcript := none,
         rally_location := none, status := "active" }] = true ∧
    orderedByKeys claimedOrderKeys
      [{ id := "b", title := "T2", date := some "2020-01-01", transcript := none,
         rally_location := none, status := "active" },
       { id := "a", title := "T1", date := some "2020-01-01", transcript := none,
         rally_location := none, status := "active" }] = false ∧
    searchRows
      [{ id := "b", title := "T2", date := some "2020-01-01", transcript := none,
         rally_location := none, status := "active" },
       { id := "a", title := "T1", date := some "2020-01-01", transcript := none,
         rally_location := none, status := "active" }]
      none none none none none
      = [{ id := "b", title := "T2", date := some "2020-01-01", transcript := none,
           rally_location := none, status := "active" },
         { id := "a", title := "T1", date := some "2020-01-01", transcript := none,
           rally_location := none, status := "active" }] := by
  refine ⟨by decide, by decide, by decide⟩

/-- C8 counterexample: the effective limit is
`Math.min(parseInt(limit) || 50, 100)` (server.js:1330) — there is no
lower clamp, so a requested limit of -5 stays -5 (outside `[1, 100]`), and
a requested limit of 0 falls back to the default 50 rather than being
raised to 1. -/
theorem c8_limit_not_clamped_below :
    searchLimitNum (some (-5)) = -5 ∧ ¬ ((1 : Int) ≤ -5) ∧
    searchLimitNum (some 0) = 50 ∧ (50 : Int) ≠ 1 := by
  refine ⟨by decide, by decide, by decide, by decide⟩

/-- C10 counterexample: a whitespace-only script ("   ") is non-empty
untrimmed and far under the length limit, yet the handler rejects it with
400 — the emptiness check at server.js:1539 runs on the TRIMMED text, not
the untrimmed input as claimed. -/
theorem c10_emptiness_checked_on_trimmed :
    uploadScriptEndpoint (some "w1") (some "   ")
      (some { name := "W", speechIds := ["archive_a"], script := none,
              audioUrl := none, rssUrl := none, status := WfStatus.draft })
      = UploadOutcome.errU 400 "Script must be a non-empty string" ∧
    ("   " : String) ≠ "" ∧ ("   " : String).length ≤ 50000 := by
  refine ⟨by decide, by decide, by decide⟩

/-- C2 (amended): each successful workflow operation sets the status to
its own fixed target stage regardless of the workflow's previous status —
`createWorkflow` → draft, `generateScript` → script_generated,
`uploadScript` → script_uploaded, `generateAudio` → audio_generated,
`finalize` → finalized — subject only to data preconditions, so the status
is NOT monotone: an operation applied to an `audio_generated` or
`finalized` workflow can move it back (see the counterexample). -/
theorem c2_each_op_sets_fixed_status :
    (∀ wid s wf stored w',
        uploadScriptEndpoint wid s wf = UploadOutcome.okU stored w' →
        w'.status = WfStatus.script_uploaded) ∧
    (∀ wid m wf n r w',
        generateScriptEndpoint wid m wf n r = GenScriptOutcome.okG w' →
        w'.status = WfStatus.script_generated) ∧
    (∀ wid wf ul proc url tts w',
        generateAudioEndpoint wid wf ul proc = GenAudioOutcome.okA url tts w' →
        w'.status = WfStatus.audio_generated) ∧
    (∀ wid wf lb url w',
        finalizeEndpoint wid wf lb = FinalizeOutcome.okF url w' →
        w'.status = WfStatus.finalized) ∧
    (∀ nm ids w, createWorkflowEndpoint nm ids = CreateWfOutcome.okC w →
        w.status = WfStatus.draft) := by
  refine ⟨?_, ?_, ?_, ?_, ?_⟩
  · intro wid s wf stored w' h
    simp only [uploadScriptEndpoint] at h
    repeat' split at h
    all_goals simp_all
    all_goals (first | rfl | (subst h; rfl) | (obtain ⟨-, rfl⟩ := h; rfl) |
      (obtain ⟨-, -, rfl⟩ := h; rfl))
  · intro wid m wf n r w' h
    simp only [generateScriptEndpoint] at h
    repeat' split at h
    all_goals simp_all
    all_goals (first | rfl | (subst h; rfl) | (obtain ⟨-, rfl⟩ := h; rfl) |
      (obtain ⟨-, -, rfl⟩ := h; rfl))
  · intro wid wf ul proc url tts w' h
    simp only [generateAudioEndpoint] at h
    repeat' split at h
    all_goals simp_all
    all_goals (first | rfl | (subst h; rfl) | (obtain ⟨-, rfl⟩ := h; rfl) |
      (obtain ⟨-, -, rfl⟩ := h; rfl))
  · intro wid wf lb url w' h
    simp only [finalizeEndpoint] at h
    repeat' split at h
    all_goals simp_all
    all_goals (first | rfl | (subst h; rfl) | (obtain ⟨-, rfl⟩ := h; rfl) |
      (obtain ⟨-, -, rfl⟩ := h; rfl))
  · intro nm ids w h
    simp only [createWorkflowEndpoint] at h
    repeat' split at h
    all_goals simp_all
    all_goals (first | rfl | (subst h; rfl) | (obtain ⟨-, rfl⟩ := h; rfl) |
      (obtain ⟨-, -, rfl⟩ := h; rfl))

/-- Witness for the amended C2 theorem at concrete inputs. -/
theorem c2_each_op_sets_fixed_status_witness :
    ({ name := "W", speechIds := ["a"], script := some "abc",
       audioUrl := none, rssUrl := none,
       status := WfStatus.script_uploaded : Workflow }).status
        = WfStatus.script_uploaded ∧
    ({ name := "W", speechIds := ["a"], script := some "s",
       audioUrl := none, rssUrl := none,
       status := WfStatus.script_generated : Workflow }).status
        = WfStatus.script_generated ∧
    ({ name := "W", speechIds := ["a"], script := some "s",
       audioUrl := some "audio/w.wav", rssUrl := none,
       status := WfStatus.audio_generated : Workflow }).status
        = WfStatus.audio_generated ∧
    ({ name := "W", speechIds := ["a"], script := some "s",
       audioUrl := some "a.wav", rssUrl := some "bundles/w/podcast.xml",
       status := WfStatus.finalized : Workflow }).status
        = WfStatus.finalized ∧
    ({ name := "W", speechIds := ["a"], script := none,
       audioUrl := none, rssUrl := none,
       status := WfStatus.draft : Workflow }).status = WfStatus.draft := by
  refine ⟨?_, ?_, ?_, ?_, ?_⟩
  · exact c2_each_op_sets_fixed_status.1 (some "w") (some "abc")
      (some { name := "W", speechIds := ["a"], script := none, audioUrl := none,
              rssUrl := none, status := WfStatus.draft }) "abc" _ (by decide)
  · exact c2_each_op_sets_fixed_status.2.1 (some "w") (some "m")
      (some { name := "W", speechIds := ["a"], script := none, audioUrl := none,
              rssUrl := none, status := WfStatus.draft }) 1 (Except.ok "s") _ (by decide)
  · exact c2_each_op_sets_fixed_status.2.2.1 (some "w")
      (some { name := "W", speechIds := ["a"], script := some "s", audioUrl := none,
              rssUrl := none, status := WfStatus.draft }) true TtsProcEnd.timeout
      "audio/w.wav"
      { success := false, fallback := true, mock := false,
        error := some "TTS generation timeout (5 minutes)", duration := none }
      _ (by decide)
  · exact c2_each_op_sets_fixed_status.2.2.2.1 (some "w")
      (some { name := "W", speechIds := ["a"], script := some "s",
              audioUrl := some "a.wav", rssUrl := none, status := WfStatus.draft })
      true "bundles/w/podcast.xml" _ (by decide)
  · exact c2_each_op_sets_fixed_status.2.2.2.2 (some "W") (some ["a"]) _ (by decide)

/-- C8 (amended): the effective limit is `min(parseInt(limit) || 50, 100)`
— capped above at 100 with default 50 for an absent, non-numeric or zero
limit, but with NO lower clamp, so a negative requested limit passes
through; the effective offset is clamped to be ≥ 0. -/
theorem c8_limit_offset_characterization :
    (∀ v : Option Int, searchLimitNum v ≤ 100) ∧
    (∀ n : Int, n ≠ 0 → searchLimitNum (some n) = min n 100) ∧
    searchLimitNum none = 50 ∧
    searchLimitNum (some 0) = 50 ∧
    (∀ v : Option Int, 0 ≤ searchOffsetNum v) ∧
    (∀ n : Int, 0 < n → searchOffsetNum (some n) = n) := by
  refine ⟨?_, ?_, by decide, by decide, ?_, ?_⟩
  · intro v
    exact min_le_right _ _
  · intro n hn
    simp [searchLimitNum, jsOrInt, hn]
  · intro v
    exact le_max_right _ _
  · intro n hn
    have h0 : n ≠ 0 := by omega
    simp [searchOffsetNum, jsOrInt, h0]
    omega

/-- Witness for the amended C8 theorem at concrete inputs. -/
theorem c8_limit_offset_characterization_witness :
    searchLimitNum (some 7) ≤ 100 ∧
    searchLimitNum (some 7) = min 7 100 ∧
    0 ≤ searchOffsetNum (some 3) ∧
    searchOffsetNum (some 3) = 3 :=
  ⟨c8_limit_offset_characterization.1 (some 7),
   c8_limit_offset_characterization.2.1 7 (by decide),
   c8_limit_offset_characterization.2.2.2.2.1 (some 3),
   c8_limit_offset_characterization.2.2.2.2.2 3 (by decide)⟩

/-- `jsTrim` of the empty string is empty (contrapositive used below). -/
theorem jsTrim_empty : jsTrim "" = "" := by decide

/-- A string whose trim is non-empty is itself non-empty. -/
theorem ne_empty_of_jsTrim_ne_empty {s : String} (h : jsTrim s ≠ "") : s ≠ "" := by
  intro e
  exact h (e ▸ jsTrim_empty)

/-- C10 (amended): the stored script is `script.trim()`; the emptiness
check is evaluated on the TRIMMED input (whitespace-only scripts are
rejected with 400), while the 50,000-character limit is evaluated on the
untrimmed input, so an over-long input is rejected with 400 even when
trimming would bring it under the limit. -/
theorem c10_upload_script_characterization :
    (∀ wid s w, wid ≠ "" → jsTrim s ≠ "" → s.length ≤ 50000 →
        uploadScriptEndpoint (some wid) (some s) (some w) =
          UploadOutcome.okU (jsTrim s)
            { w with script := some (jsTrim s),
                     status := WfStatus.script_uploaded }) ∧
    (∀ wid s w, wid ≠ "" → s ≠ "" → jsTrim s = "" →
        uploadScriptEndpoint (some wid) (some s) (some w) =
          UploadOutcome.errU 400 "Script must be a non-empty string") ∧
    (∀ wid s w, wid ≠ "" → jsTrim s ≠ "" → s.length > 50000 →
        uploadScriptEndpoint (some wid) (some s) (some w) =
          UploadOutcome.errU 400 "Script too long (max 50,000 characters)") := by
  refine ⟨?_, ?_, ?_⟩
  · intro wid s w h1 h2 h3
    have hs : s ≠ "" := ne_empty_of_jsTrim_ne_empty h2
    have hl : (jsTrim s).length ≠ 0 := by
      intro e
      apply h2
      apply String.ext
      have e' : (jsTrim s).data.length = 0 := e
      exact (List.length_eq_zero.mp e') ▸ rfl
    simp [uploadScriptEndpoint, jsTruthyStr, h1, hs, hl, Nat.not_lt.mpr h3]
  · intro wid s w h1 h2 h3
    have hl : (jsTrim s).length = 0 := by
      rw [h3]
      rfl
    simp [uploadScriptEndpoint, jsTruthyStr, h1, h2, hl]
  · intro wid s w h1 h2 h3
    have hs : s ≠ "" := ne_empty_of_jsTrim_ne_empty h2
    have hl : (jsTrim s).length ≠ 0 := by
      intro e
      apply h2
      apply String.ext
      have e' : (jsTrim s).data.length = 0 := e
      exact (List.length_eq_zero.mp e') ▸ rfl
    simp [uploadScriptEndpoint, jsTruthyStr, h1, hs, hl, h3]

/-- Witness for the amended C10 theorem at concrete inputs (the over-long
case uses a 50,001-character script with no surrounding whitespace). -/
theorem c10_upload_script_characterization_witness :
    uploadScriptEndpoint (some "w1") (some " hi ")
      (some { name := "W", speechIds := ["a"], script := none, audioUrl := none,
              rssUrl := none, status := WfStatus.draft })
      = UploadOutcome.okU "hi"
          { name := "W", speechIds := ["a"], script := some "hi", audioUrl := none,
            rssUrl := none, status := WfStatus.script_uploaded } ∧
    uploadScriptEndpoint (some "w1") (some "  ")
      (some { name := "W", speechIds := ["a"], script := none, audioUrl := none,
              rssUrl := none, status := WfStatus.draft })
      = UploadOutcome.errU 400 "Script must be a non-empty string" ∧
    uploadScriptEndpoint (some "w1")
      (some (String.mk (List.replicate 50001 'b')))
      (some { name := "W", speechIds := ["a"], script := none, audioUrl := none,
              rssUrl := none, status := WfStatus.draft })
      = UploadOutcome.errU 400 "Script too long (max 50,000 characters)" := by
  have hdw : ∀ m : Nat, (List.replicate m 'b').dropWhile Char.isWhitespace
      = List.replicate m 'b' := by
    intro m
    cases m with
    | zero => rfl
    | succ k =>
        rw [List.replicate_succ, List.dropWhile_cons_of_neg (by decide)]
  have hrep : jsTrim (String.mk (List.replicate 50001 'b'))
      = String.mk (List.replicate 50001 'b') := by
    show String.mk (jsTrimList (List.replicate 50001 'b')) = _
    unfold jsTrimList
    rw [hdw, List.reverse_replicate, hdw, List.reverse_replicate]
  have hne : String.mk (List.replicate 50001 'b') ≠ "" := by
    intro e
    have hd : List.replicate 50001 'b' = [] := congrArg String.data e
    have hlen := congrArg List.length hd
    rw [List.length_replicate] at hlen
    exact absurd hlen (by decide)
  refine ⟨?_, ?_, ?_⟩
  · have := c10_upload_script_characterization.1 "w1" " hi "
      { name := "W", speechIds := ["a"], script := none, audioUrl := none,
        rssUrl := none, status := WfStatus.draft }
      (by decide) (by decide) (by decide)
    simpa using this
  · exact c10_upload_script_characterization.2.1 "w1" "  "
      { name := "W", speechIds := ["a"], script := none, audioUrl := none,
        rssUrl := none, status := WfStatus.draft }
      (by decide) (by decide) (by decide)
  · exact c10_upload_script_characterization.2.2 "w1"
      (String.mk (List.replicate 50001 'b'))
      { name := "W", speechIds := ["a"], script := none, audioUrl := none,
        rssUrl := none, status := WfStatus.draft }
      (by decide)
      (by rw [hrep]; exact hne)
      (by show (List.replicate 50001 'b').length > 50000
          rw [List.length_replicate]
          decide)

/-- A cleared key that still carries a nonzero cooldown after the pass
must have a cooldown strictly in the future. -/
theorem clearExpired_keeps_only_future (now : Nat) (k : PoolKey) (t : Nat)
    (h : (clearExpired now k).rateLimitedUntil = some t) (h0 : 0 < t) :
    now < t := by
  unfold clearExpired at h
  split at h
  · cases h
  · next hc =>
    rw [h] at hc
    simp [jsTruthyTime] at hc
    rcases Nat.eq_zero_or_pos t with h' | h'
    · omega
    · exact hc (by omega)

/-- The round-robin `lastUsed` touch does not change `rateLimitedUntil`. -/
theorem lastUsed_touch_preserves_cooldown (now : Nat) (c : PoolKey) (k : PoolKey) :
    ((if k.key == c.key then { k with lastUsed := some now } else k)).rateLimitedUntil
      = k.rateLimitedUntil := by
  split <;> rfl

/-- C3: (1) whenever `getNextKey` returns a key, that key's pool entry had
`rate_limited_until` (null read as 0) at most `now` — never strictly in
the future; (2) after the pass, every key either has no cooldown or a
cooldown strictly in the future (expired cooldowns were cleared; the
`0 < t` side condition reflects that a stored cooldown
`Date.now() + durationMs` is a positive epoch value, JS treating a 0 value
as null); (3) when the pool is empty or every key is cooling down, the
call returns null. -/
theorem c3_pool_never_returns_cooling_key :
    (∀ (p : ApiKeyPool) (now : Nat) (k : String) (p' : ApiKeyPool),
        getNextKey p now = (some k, p') →
        ∃ pk, pk ∈ p.keys ∧ pk.key = k ∧ pk.rateLimitedUntil.getD 0 ≤ now) ∧
    (∀ (p : ApiKeyPool) (now : Nat) (pk' : PoolKey),
        pk' ∈ (getNextKey p now).2.keys →
        ∀ t, pk'.rateLimitedUntil = some t → 0 < t → now < t) ∧
    (∀ (p : ApiKeyPool) (now : Nat),
        (∀ pk, pk ∈ p.keys → ∃ t, pk.rateLimitedUntil = some t ∧ now < t) →
        (getNextKey p now).1 = none) := by
  refine ⟨?_, ?_, ?_⟩
  · intro p now k p' h
    cases hf : p.keys.filter (keyAvailable now) with
    | nil =>
        simp only [getNextKey, hf] at h
        exact absurd h (by simp)
    | cons a tl =>
        simp only [getNextKey, hf] at h
        obtain ⟨hk, -⟩ := Prod.mk.injEq .. ▸ h
        injection hk with hk
        set idx := p.currentIndex % (a :: tl).length with hidx
        set chosen := (a :: tl).get ⟨idx, Nat.mod_lt _ (Nat.succ_pos tl.length)⟩
          with hch
        have hmemf : chosen ∈ p.keys.filter (keyAvailable now) := by
          rw [hf, hch]
          exact List.get_mem _ _ _
        obtain ⟨hmem, havail⟩ := List.mem_filter.mp hmemf
        refine ⟨chosen, hmem, hk, ?_⟩
        cases hru : chosen.rateLimitedUntil with
        | none => exact Nat.zero_le now
        | some t =>
            rw [keyAvailable, hru] at havail
            simp [jsTruthyTime] at havail
            rcases havail with h0 | hle
            · simp [h0]
            · simpa using hle
  · intro p now pk' hmem t ht h0
    cases hf : p.keys.filter (keyAvailable now) with
    | nil =>
        simp only [getNextKey, hf] at hmem
        obtain ⟨orig, -, rfl⟩ := List.mem_map.mp hmem
        exact clearExpired_keeps_only_future now orig t ht h0
    | cons a tl =>
        simp only [getNextKey, hf] at hmem
        obtain ⟨mid, hmid, rfl⟩ := List.mem_map.mp hmem
        obtain ⟨orig, -, rfl⟩ := List.mem_map.mp hmid
        rw [lastUsed_touch_preserves_cooldown] at ht
        exact clearExpired_keeps_only_future now orig t ht h0
  · intro p now hall
    have hf : p.keys.filter (keyAvailable now) = [] := by
      rw [List.filter_eq_nil]
      intro pk hpk
      obtain ⟨t, ht, hlt⟩ := hall pk hpk
      simp [keyAvailable, jsTruthyTime, ht]
      omega
    simp only [getNextKey, hf]

/-- Witness for the C3 theorem at concrete pools: a fresh key is returned
with no future cooldown; after a pass over a pool with an expired cooldown
no nonzero expired cooldown survives; a fully cooling-down pool yields
null. -/
theorem c3_pool_never_returns_cooling_key_witness :
    (∃ pk, pk ∈ ({ keys := [{ key := "sk-or-v1-a", priority := 10, lastUsed := none,
                              rateLimitedUntil := none, successCount := 0,
                              errorCount := 0 }],
                   currentIndex := 0 } : ApiKeyPool).keys ∧
       pk.key = "sk-or-v1-a" ∧ pk.rateLimitedUntil.getD 0 ≤ 5) ∧
    (∀ t, ({ key := "sk-or-v1-a", priority := 10, lastUsed := some 500,
             rateLimitedUntil := none, successCount := 0,
             errorCount := 0 } : PoolKey).rateLimitedUntil = some t → 0 < t →
       (500 : Nat) < t) ∧
    (getNextKey { keys := [{ key := "sk-or-v1-a", priority := 10, lastUsed := none,
                             rateLimitedUntil := some 900, successCount := 0,
                             errorCount := 0 }],
                  currentIndex := 0 } 200).1 = none := by
  refine ⟨?_, ?_, ?_⟩
  · exact c3_pool_never_returns_cooling_key.1
      { keys := [{ key := "sk-or-v1-a", priority := 10, lastUsed := none,
                   rateLimitedUntil := none, successCount := 0, errorCount := 0 }],
        currentIndex := 0 } 5 "sk-or-v1-a"
      { keys := [{ key := "sk-or-v1-a", priority := 10, lastUsed := some 5,
                   rateLimitedUntil := none, successCount := 0, errorCount := 0 }],
        currentIndex := 0 } (by decide)
  · exact c3_pool_never_returns_cooling_key.2.1
      { keys := [{ key := "sk-or-v1-a", priority := 10, lastUsed := none,
                   rateLimitedUntil := some 100, successCount := 0, errorCount := 0 }],
        currentIndex := 0 } 500
      { key := "sk-or-v1-a", priority := 10, lastUsed := some 500,
        rateLimitedUntil := none, successCount := 0, errorCount := 0 }
      (by decide)
  · exact c3_pool_never_returns_cooling_key.2.2
      { keys := [{ key := "sk-or-v1-a", priority := 10, lastUsed := none,
                   rateLimitedUntil := some 900, successCount := 0, errorCount := 0 }],
        currentIndex := 0 } 200
      (by
        intro pk hpk
        rw [List.mem_singleton] at hpk
        subst hpk
        exact ⟨900, rfl, by decide⟩)

/-- C6: for a generate-audio request on an existing workflow with a
(truthy) script, if the local TTS invocation fails in any of the claim's
three ways (nonzero exit code, spawn error, 5-minute timeout), the handler
still records the fallback audio path `audio/<workflowId>.wav`, still
advances the workflow to `audio_generated`, and answers 200 with a
`ttsResult` carrying `success = false` and `fallback = true` — the
request does not fail. -/
theorem c6_tts_failure_fallback (wid : String) (w : Workflow) (s : String)
    (proc : TtsProcEnd)
    (hwid : wid ≠ "") (hs : w.script = some s) (hs' : s ≠ "")
    (hfail : ttsInvocationFailed proc = true) :
    ∃ e, generateAudioEndpoint (some wid) (some w) true proc
      = GenAudioOutcome.okA ("audio/" ++ wid ++ ".wav")
          { success := false, fallback := true, mock := false,
            error := some e, duration := none }
          { w with audioUrl := some ("audio/" ++ wid ++ ".wav"),
                   status := WfStatus.audio_generated } := by
  have herr : ∃ e, generateLocalTTS proc = Except.error e := by
    cases proc with
    | exited c pj st =>
        cases c with
        | zero => simp [ttsInvocationFailed] at hfail
        | succ n => exact ⟨_, rfl⟩
    | spawnError m => exact ⟨_, rfl⟩
    | timeout => exact ⟨_, rfl⟩
  obtain ⟨e, he⟩ := herr
  refine ⟨e, ?_⟩
  simp [generateAudioEndpoint, jsTruthyStr, hwid, hs, hs', he]

/-- Witness for C6 at a concrete workflow and the timeout failure. -/
theorem c6_tts_failure_fallback_witness :
    ∃ e, generateAudioEndpoint (some "w1")
      (some { name := "W", speechIds := ["a"], script := some "s",
              audioUrl := none, rssUrl := none, status := WfStatus.draft })
      true TtsProcEnd.timeout
      = GenAudioOutcome.okA "audio/w1.wav"
          { success := false, fallback := true, mock := false,
            error := some e, duration := none }
          { name := "W", speechIds := ["a"], script := some "s",
            audioUrl := some "audio/w1.wav", rssUrl := none,
            status := WfStatus.audio_generated } :=
  c6_tts_failure_fallback "w1"
    { name := "W", speechIds := ["a"], script := some "s",
      audioUrl := none, rssUrl := none, status := WfStatus.draft }
    "s" TtsProcEnd.timeout (by decide) rfl (by decide) (by decide)

/-- Insertion into a list only adds the inserted element. -/
theorem mem_insertOrdered {ks : List OrderKey} {r x : SpeechRow} :
    ∀ {l : List SpeechRow}, x ∈ insertOrdered ks r l → x = r ∨ x ∈ l := by
  intro l
  induction l with
  | nil =>
      intro h
      rw [insertOrdered] at h
      exact Or.inl (List.mem_singleton.mp h)
  | cons a t ih =>
      intro h
      rw [insertOrdered] at h
      split at h
      · rcases List.mem_cons.mp h with h' | h'
        · exact Or.inl h'
        · exact Or.inr h'
      · rcases List.mem_cons.mp h with h' | h'
        · exact Or.inr (h' ▸ List.mem_cons_self a t)
        · rcases ih h' with h'' | h''
          · exact Or.inl h''
          · exact Or.inr (List.mem_cons_of_mem a h'')

/-- The sort is a permutation-level no-op for membership. -/
theorem mem_sortByKeys {ks : List OrderKey} {x : SpeechRow} :
    ∀ {l : List SpeechRow}, x ∈ sortByKeys ks l → x ∈ l := by
  intro l
  induction l with
  | nil => intro h; rw [sortByKeys] at h; cases h
  | cons a t ih =>
      intro h
      rw [sortByKeys] at h
      rcases mem_insertOrdered h with h' | h'
      · exact h' ▸ List.mem_cons_self a t
      · exact List.mem_cons_of_mem a (ih h')

/-- LIMIT/OFFSET only selects from the ordered rows. -/
theorem mem_applyLimitOffset {lim off : Int} {l : List SpeechRow} {x : SpeechRow}
    (h : x ∈ applyLimitOffset lim off l) : x ∈ l := by
  rw [applyLimitOffset] at h
  split at h
  · exact List.mem_of_mem_drop h
  · exact List.mem_of_mem_drop (List.mem_of_mem_take h)

/-- The assembled WHERE clause starts with its `status = 'active'`
conjunct. -/
theorem buildSearchConds_cons (kw sd ed : Option String) :
    buildSearchConds kw sd ed =
      SearchCond.statusEq "active" :: (buildSearchConds kw sd ed).tail := rfl

/-- Any row satisfying the assembled WHERE clause is active. -/
theorem status_of_rowMatches {r : SpeechRow} {kw sd ed : Option String}
    (h : rowMatches (buildSearchConds kw sd ed) r = true) : r.status = "active" := by
  rw [rowMatches, buildSearchConds_cons, List.all_cons] at h
  have h1 := (Bool.and_eq_true _ _ |>.mp h).1
  rw [condHolds] at h1
  exact beq_iff_eq.mp h1

/-- C9: the row query never returns a non-active speech, and the
pagination total counts only active speeches — restricting the table to
its active rows leaves the total unchanged, for every combination of
keyword, date bounds, limit and offset. -/
theorem c9_search_active_only :
    (∀ table kw sd ed lim off r,
        r ∈ searchRows table kw sd ed lim off → r.status = "active") ∧
    (∀ table kw sd ed,
        searchTotal table kw sd ed =
          searchTotal (table.filter (fun r => r.status == "active")) kw sd ed) := by
  constructor
  · intro table kw sd ed lim off r hr
    have h1 := mem_applyLimitOffset hr
    have h2 := mem_sortByKeys h1
    exact status_of_rowMatches (List.mem_filter.mp h2).2
  · intro table kw sd ed
    rw [searchTotal, searchTotal, List.filter_filter]
    have hcong : ∀ r ∈ table,
        rowMatches (buildSearchConds kw sd ed) r =
          (rowMatches (buildSearchConds kw sd ed) r && (r.status == "active")) := by
      intro r _
      cases h : rowMatches (buildSearchConds kw sd ed) r with
      | false => rfl
      | true =>
          have := status_of_rowMatches h
          simp [this]
    rw [List.filter_congr hcong]

/-- Witness for C9 at a concrete two-row table holding one active and one
hidden speech. -/
theorem c9_search_active_only_witness :
    ({ id := "a", title := "T", date := some "2020-01-01", transcript := none,
       rally_location := none, status := "active" } : SpeechRow).status = "active" ∧
    searchTotal
      [{ id := "a", title := "T", date := some "2020-01-01", transcript := none,
         rally_location := none, status := "active" },
       { id := "h", title := "H", date := some "2021-01-01", transcript := none,
         rally_location := none, status := "hidden" }] none none none =
      searchTotal
        (([{ id := "a", title := "T", date := some "2020-01-01", transcript := none,
             rally_location := none, status := "active" },
           { id := "h", title := "H", date := some "2021-01-01", transcript := none,
             rally_location := none, status := "hidden" }] :
            List SpeechRow).filter (fun r => r.status == "active")) none none none := by
  constructor
  · exact c9_search_active_only.1
      [{ id := "a", title := "T", date := some "2020-01-01", transcript := none,
         rally_location := none, status := "active" },
       { id := "h", title := "H", date := some "2021-01-01", transcript := none,
         rally_location := none, status := "hidden" }]
      none none none none none
      { id := "a", title := "T", date := some "2020-01-01", transcript := none,
        rally_location := none, status := "active" }
      (by decide)
  · exact c9_search_active_only.2
      [{ id := "a", title := "T", date := some "2020-01-01", transcript := none,
         rally_location := none, status := "active" },
       { id := "h", title := "H", date := some "2021-01-01", transcript := none,
         rally_location := none, status := "hidden" }]
      none none none

/-- `charListCmp` is antisymmetric under `Ordering.swap`. -/
theorem charListCmp_swap : ∀ (a b : List Char),
    charListCmp a b = (charListCmp b a).swap := by
  intro a
  induction a with
  | nil => intro b; cases b <;> rfl
  | cons x xs ih =>
      intro b
      cases b with
      | nil => rfl
      | cons y ys =>
          rw [charListCmp, charListCmp]
          rcases lt_trichotomy x y with h | h | h
          · simp [h, lt_asymm h, Ordering.swap]
          · subst h
            simp only [lt_irrefl, if_false]
            exact ih ys
          · simp [h, lt_asymm h, Ordering.swap]

theorem strCmp3_swap (a b : String) : strCmp3 a b = (strCmp3 b a).swap :=
  charListCmp_swap a.data b.data

theorem sqliteCmpOptDate_swap : ∀ (a b : Option String),
    sqliteCmpOptDate a b = (sqliteCmpOptDate b a).swap := by
  intro a b
  cases a <;> cases b <;> first | rfl | (exact strCmp3_swap _ _)

theorem cmpForKey_swap (k : OrderKey) (a b : SpeechRow) :
    cmpForKey k a b = (cmpForKey k b a).swap := by
  cases k with
  | dateDesc =>
      rw [cmpForKey, cmpForKey, sqliteCmpOptDate_swap]
  | idAsc => exact strCmp3_swap _ _

theorem cmpForKeys_swap (ks : List OrderKey) (a b : SpeechRow) :
    cmpForKeys ks a b = (cmpForKeys ks b a).swap := by
  induction ks with
  | nil => rfl
  | cons k rest ih =>
      rw [cmpForKeys, cmpForKeys, cmpForKey_swap k a b]
      cases cmpForKey k b a with
      | lt => rfl
      | gt => rfl
      | eq => exact ih

/-- If `b` comes before `a`, then `a` does not come before `b`
strictly. -/
theorem cmpForKeys_not_gt_of_gt {ks : List OrderKey} {a b : SpeechRow}
    (h : cmpForKeys ks a b = Ordering.gt) : cmpForKeys ks b a ≠ Ordering.gt := by
  rw [cmpForKeys_swap] at h
  intro h'
  rw [h'] at h
  cases h

/-- Inserting into an ordered list keeps it ordered. -/
theorem orderedByKeys_insertOrdered {ks : List OrderKey} (r : SpeechRow) :
    ∀ {l : List SpeechRow}, orderedByKeys ks l = true →
      orderedByKeys ks (insertOrdered ks r l) = true := by
  intro l
  induction l with
  | nil =>
      intro _
      rfl
  | cons a t ih =>
      intro h
      rw [insertOrdered]
      split
      · next hc =>
          show orderedByKeys ks (r :: a :: t) = true
          rw [orderedByKeys]
          simp only [Bool.and_eq_true, decide_eq_true_eq]
          exact ⟨hc, h⟩
      · next hc =>
          rw [not_not] at hc
          have har : cmpForKeys ks a r ≠ Ordering.gt := cmpForKeys_not_gt_of_gt hc
          cases t with
          | nil =>
              show orderedByKeys ks (a :: insertOrdered ks r []) = true
              rw [insertOrdered, orderedByKeys]
              simp only [Bool.and_eq_true, decide_eq_true_eq]
              exact ⟨har, rfl⟩
          | cons b t' =>
              rw [orderedByKeys, Bool.and_eq_true, decide_eq_true_eq] at h
              obtain ⟨hab, hbt⟩ := h
              have hrec := ih hbt
              show orderedByKeys ks (a :: insertOrdered ks r (b :: t')) = true
              rw [insertOrdered]
              split
              · next hrb =>
                  show orderedByKeys ks (a :: r :: b :: t') = true
                  rw [orderedByKeys, Bool.and_eq_true, decide_eq_true_eq]
                  refine ⟨har, ?_⟩
                  rw [orderedByKeys, Bool.and_eq_true, decide_eq_true_eq]
                  exact ⟨hrb, hbt⟩
              · next hrb =>
                  rw [insertOrdered] at hrec
                  rw [if_neg hrb] at hrec
                  show orderedByKeys ks (a :: b :: insertOrdered ks r t') = true
                  rw [orderedByKeys, Bool.and_eq_true, decide_eq_true_eq]
                  exact ⟨hab, hrec⟩

/-- The sort produces an ordered list. -/
theorem orderedByKeys_sortByKeys (ks : List OrderKey) :
    ∀ (l : List SpeechRow), orderedByKeys ks (sortByKeys ks l) = true := by
  intro l
  induction l with
  | nil => rfl
  | cons a t ih =>
      rw [sortByKeys]
      exact orderedByKeys_insertOrdered a ih

/-- Dropping a prefix of an ordered list keeps it ordered. -/
theorem orderedByKeys_drop (ks : List OrderKey) :
    ∀ (n : Nat) (l : List SpeechRow), orderedByKeys ks l = true →
      orderedByKeys ks (l.drop n) = true := by
  intro n
  induction n with
  | zero => intro l h; simpa using h
  | succ m ih =>
      intro l h
      cases l with
      | nil => rfl
      | cons a t =>
          rw [List.drop_succ_cons]
          apply ih
          cases t with
          | nil => rfl
          | cons b t' =>
              rw [orderedByKeys, Bool.and_eq_true] at h
              exact h.2

/-- Taking a prefix of an ordered list keeps it ordered. -/
theorem orderedByKeys_take (ks : List OrderKey) :
    ∀ (l : List SpeechRow) (n : Nat), orderedByKeys ks l = true →
      orderedByKeys ks (l.take n) = true := by
  intro l
  induction l with
  | nil => intro n _; simp [orderedByKeys]
  | cons a t ih =>
      intro n h
      cases n with
      | zero => rfl
      | succ m =>
          rw [List.take_succ_cons]
          cases t with
          | nil => simp [orderedByKeys]
          | cons b t' =>
              rw [orderedByKeys, Bool.and_eq_true, decide_eq_true_eq] at h
              obtain ⟨hab, hbt⟩ := h
              cases m with
              | zero => rfl
              | succ m' =>
                  rw [List.take_succ_cons]
                  rw [orderedByKeys, Bool.and_eq_true, decide_eq_true_eq]
                  refine ⟨hab, ?_⟩
                  have := ih (m' + 1) hbt
                  rwa [List.take_succ_cons] at this

/-- LIMIT/OFFSET keeps the list ordered. -/
theorem orderedByKeys_applyLimitOffset (ks : List OrderKey) (lim off : Int)
    (l : List SpeechRow) (h : orderedByKeys ks l = true) :
    orderedByKeys ks (applyLimitOffset lim off l) = true := by
  rw [applyLimitOffset]
  split
  · exact orderedByKeys_drop ks _ l h
  · exact orderedByKeys_take ks _ _ (orderedByKeys_drop ks _ l h)

/-- A single-key comparison chain is that key's comparison. -/
theorem cmpForKeys_single (k : OrderKey) (a b : SpeechRow) :
    cmpForKeys [k] a b = cmpForKey k a b := by
  rw [cmpForKeys]
  cases cmpForKey k a b <;> rfl

/-- C7 (amended): every result list of the search query is ordered by the
clause the handler actually emits — `date DESC` alone — under the SQLite
value order in which NULL sorts below every text value; consequently along
the result list dates never increase and a row with a NULL date is never
followed by a dated row (nulls sort last).  No `id` tie-break is imposed
(see the counterexample), so equal-date rows may appear in any order. -/
theorem c7_date_desc_nulls_last :
    (∀ table kw sd ed lim off,
        orderedByKeys searchOrderKeys (searchRows table kw sd ed lim off) = true) ∧
    (∀ l, orderedByKeys searchOrderKeys l = true →
        ∀ p ∈ l.zip l.tail,
          sqliteCmpOptDate p.1.date p.2.date ≠ Ordering.lt ∧
            (p.1.date = none → p.2.date = none)) := by
  constructor
  · intro table kw sd ed lim off
    exact orderedByKeys_applyLimitOffset _ _ _ _
      (orderedByKeys_sortByKeys _ _)
  · intro l
    induction l with
    | nil => intro _ p hp; cases hp
    | cons a t ih =>
        intro h p hp
        cases t with
        | nil => cases hp
        | cons b t' =>
            rw [orderedByKeys, Bool.and_eq_true, decide_eq_true_eq] at h
            obtain ⟨hab, hbt⟩ := h
            rw [List.tail_cons, List.zip_cons_cons] at hp
            rcases List.mem_cons.mp hp with hp' | hp'
            · subst hp'
              simp only [searchOrderKeys] at hab
              rw [cmpForKeys_single, cmpForKey] at hab
              have hne : sqliteCmpOptDate a.date b.date ≠ Ordering.lt := by
                intro hlt
                rw [hlt] at hab
                exact hab rfl
              refine ⟨hne, ?_⟩
              intro hnone
              cases hbd : b.date with
              | none => rfl
              | some d =>
                  rw [hnone, hbd] at hne
                  exact absurd rfl hne
            · have := ih hbt p
              rw [List.tail_cons] at this
              exact this hp'

/-- Witness for the amended C7 theorem at a concrete table and list. -/
theorem c7_date_desc_nulls_last_witness :
    orderedByKeys searchOrderKeys
      (searchRows
        [{ id := "a", title := "T1", date := none, transcript := none,
           rally_location := none, status := "active" },
         { id := "b", title := "T2", date := some "2020-01-01", transcript := none,
           rally_location := none, status := "active" }]
        none none none none none) = true ∧
    (∀ p ∈ ([{ id := "b", title := "T2", date := some "2020-01-01",
               transcript := none, rally_location := none, status := "active" },
             { id := "a", title := "T1", date := none, transcript := none,
               rally_location := none, status := "active" }] : List SpeechRow).zip
          ([{ id := "b", title := "T2", date := some "2020-01-01",
              transcript := none, rally_location := none, status := "active" },
            { id := "a", title := "T1", date := none, transcript := none,
              rally_location := none, status := "active" }] : List SpeechRow).tail,
        sqliteCmpOptDate p.1.date p.2.date ≠ Ordering.lt ∧
          (p.1.date = none → p.2.date = none)) := by
  constructor
  · exact c7_date_desc_nulls_last.1
      [{ id := "a", title := "T1", date := none, transcript := none,
         rally_location := none, status := "active" },
       { id := "b", title := "T2", date := some "2020-01-01", transcript := none,
         rally_location := none, status := "active" }]
      none none none none none
  · exact c7_date_desc_nulls_last.2
      [{ id := "b", title := "T2", date := some "2020-01-01", transcript := none,
         rally_location := none, status := "active" },
       { id := "a", title := "T1", date := none, transcript := none,
         rally_location := none, status := "active" }]
      (by decide)

/-- With positive batch width and enough fuel, the chunks concatenate
back to the input (the batches are contiguous and partition the list). -/
theorem chunksGo_join (bs : Nat) (hbs : 0 < bs) :
    ∀ (fuel : Nat) (l : List GSSpeech), l.length ≤ fuel →
      (chunksGo bs fuel l).join = l := by
  intro fuel
  induction fuel with
  | zero =>
      intro l hl
      cases l with
      | nil => rfl
      | cons a t => simp at hl
  | succ m ih =>
      intro l hl
      cases l with
      | nil => rfl
      | cons a t =>
          show List.take bs (a :: t) ++ (chunksGo bs m (List.drop bs (a :: t))).join
            = a :: t
          have hlc : (a :: t).length = t.length + 1 := rfl
          have hdl : (List.drop bs (a :: t)).length = t.length + 1 - bs := by
            rw [List.length_drop, hlc]
          rw [ih _ (by rw [hdl]; rw [hlc] at hl; omega), List.take_append_drop]

/-- With positive batch width and enough fuel, the number of chunks is
`ceil (length / bs)`. -/
theorem chunksGo_length (bs : Nat) (hbs : 0 < bs) :
    ∀ (fuel : Nat) (l : List GSSpeech), l.length ≤ fuel →
      (chunksGo bs fuel l).length = (l.length + bs - 1) / bs := by
  intro fuel
  induction fuel with
  | zero =>
      intro l hl
      cases l with
      | nil =>
          have h0 : (List.length ([] : List GSSpeech) + bs - 1) / bs = 0 :=
            Nat.div_eq_of_lt (by simp; omega)
          rw [h0]
          rfl
      | cons a t => simp at hl
  | succ m ih =>
      intro l hl
      cases l with
      | nil =>
          have h0 : (List.length ([] : List GSSpeech) + bs - 1) / bs = 0 :=
            Nat.div_eq_of_lt (by simp; omega)
          rw [h0]
          rfl
      | cons a t =>
          show (List.take bs (a :: t) :: chunksGo bs m (List.drop bs (a :: t))).length
            = ((a :: t).length + bs - 1) / bs
          have hlc : (a :: t).length = t.length + 1 := rfl
          have hdl : (List.drop bs (a :: t)).length = t.length + 1 - bs := by
            rw [List.length_drop, hlc]
          rw [List.length_cons, ih _ (by rw [hdl]; rw [hlc] at hl; omega), hdl, hlc]
          rcases le_or_lt (t.length + 1) bs with hle | hlt
          · have h1 : t.length + 1 - bs = 0 := by omega
            have h2 : (0 + bs - 1) / bs = 0 := Nat.div_eq_of_lt (by omega)
            have h3 : (t.length + 1 + bs - 1) / bs = 1 := by
              have e1 : t.length + 1 + bs - 1 = t.length + bs := by omega
              rw [e1, Nat.add_div_right _ hbs]
              have e2 : t.length / bs = 0 := Nat.div_eq_of_lt (by omega)
              omega
            rw [h1, h2, h3]
          · have h1 : t.length + 1 - bs + bs - 1 = t.length := by omega
            have h2 : t.length + 1 + bs - 1 = t.length + bs := by omega
            rw [h1, h2, Nat.add_div_right _ hbs]

/-- C5: for a generate-script request with more speeches than the batch
size and swarm not requested, the dispatch picks the batched strategy; the
orchestrator chunks the speeches into `ceil(n/batchSize)` contiguous
batches that partition the input, issues exactly one summary call per
batch plus one synthesis call (`ceil(n/batchSize) + 1` in total); any
batch whose summary call fails has its entry replaced by
`"Batch processing failed: "` followed by the batch's titles while the
rest of the pipeline still runs; and when the synthesis call succeeds a
script is still produced.  (`0 < batchSize` reflects that the batch width
is positive — the JS chunking loop would not terminate at 0.) -/
theorem c5_batch_pipeline (speeches : List GSSpeech) (style : String)
    (duration batchSize : Nat) (oracle : Nat → String → Except String String)
    (hbs : 0 < batchSize) (hn : speeches.length > batchSize) :
    chooseStrategy false speeches.length batchSize = Strategy.batched ∧
    (generateBatchScript speeches style duration batchSize oracle).batches.join
      = speeches ∧
    (generateBatchScript speeches style duration batchSize oracle).batches.length
      = (speeches.length + batchSize - 1) / batchSize ∧
    (generateBatchScript speeches style duration batchSize oracle).callCount
      = (generateBatchScript speeches style duration batchSize oracle).batches.length
          + 1 ∧
    (∀ i (h : i <
          (generateBatchScript speeches style duration batchSize oracle).batches.length)
        (e : String),
        oracle i (batchPrompt
            ((generateBatchScript speeches style duration batchSize oracle).batches.get
              ⟨i, h⟩)) = Except.error e →
        ∃ hs : i <
            (generateBatchScript speeches style duration batchSize oracle).summaries.length,
          (((generateBatchScript speeches style duration batchSize oracle).summaries.get
              ⟨i, hs⟩)).summary =
            "Batch processing failed: " ++
              String.intercalate ", "
                (((generateBatchScript speeches style duration batchSize oracle).batches.get
                    ⟨i, h⟩).map GSSpeech.title)) ∧
    (∀ s, oracle
          (generateBatchScript speeches style duration batchSize oracle).batches.length
          (generateBatchScript speeches style duration batchSize oracle).synthesisPrompt
        = Except.ok s →
        (generateBatchScript speeches style duration batchSize oracle).result
          = Except.ok s) := by
  refine ⟨?_, ?_, ?_, rfl, ?_, ?_⟩
  · simp [chooseStrategy, hn]
  · exact chunksGo_join batchSize hbs speeches.length speeches le_rfl
  · exact chunksGo_length batchSize hbs speeches.length speeches le_rfl
  · intro i h e he
    have hlen : (generateBatchScript speeches style duration batchSize oracle).summaries.length
        = (generateBatchScript speeches style duration batchSize oracle).batches.length := by
      simp [generateBatchScript, mkBatchSummaries]
    refine ⟨by rw [hlen]; exact h, ?_⟩
    simp only [generateBatchScript, mkBatchSummaries, List.get_eq_getElem,
      List.getElem_map, List.getElem_enum] at he ⊢
    rw [he]
  · intro s hs
    exact hs

/-- Concrete three-speech input for the C5 witness. -/
def batchDemoSpeeches : List GSSpeech :=
  [{ title := "S1", date := "2020-01-01", transcript := none, rally_location := none },
   { title := "S2", date := "2020-01-02", transcript := none, rally_location := none },
   { title := "S3", date := "2020-01-03", transcript := none, rally_location := none }]

/-- Concrete oracle for the C5 witness: the second batch call (index 1)
fails, every other call succeeds. -/
def batchDemoOracle : Nat → String → Except String String :=
  fun i _ => if i = 1 then Except.error "boom" else Except.ok "synth"

/-- Witness for C5 at three speeches with batch size 1: the dispatch picks
the batched strategy, the failed second batch leaves the marker entry
built from its title, and the synthesis still yields the script. -/
theorem c5_batch_pipeline_witness :
    chooseStrategy false 3 1 = Strategy.batched ∧
    (generateBatchScript batchDemoSpeeches "professional" 10 1 batchDemoOracle).batches.length
      = 3 ∧
    (generateBatchScript batchDemoSpeeches "professional" 10 1 batchDemoOracle).callCount
      = 4 ∧
    (∃ hs : 1 <
        (generateBatchScript batchDemoSpeeches "professional" 10 1 batchDemoOracle).summaries.length,
      (((generateBatchScript batchDemoSpeeches "professional" 10 1 batchDemoOracle).summaries.get
          ⟨1, hs⟩)).summary = "Batch processing failed: S2") ∧
    (generateBatchScript batchDemoSpeeches "professional" 10 1 batchDemoOracle).result
      = Except.ok "synth" := by
  have big := c5_batch_pipeline batchDemoSpeeches "professional" 10 1 batchDemoOracle
    (by decide) (by decide)
  refine ⟨big.1, ?_, ?_, ?_, ?_⟩
  · rw [big.2.2.1]
    decide
  · rw [big.2.2.2.1, big.2.2.1]
    decide
  · obtain ⟨hs, heq⟩ := big.2.2.2.2.1 1 (by decide) "boom" (by rfl)
    exact ⟨hs, heq.trans (by decide)⟩
  · exact big.2.2.2.2.2 "synth" (by rfl)

end TrumpPodgen
